import Mathlib

/-!
Shallow embedding of the Smart Waste Management dashboard core (src/app.py)
and verification of its specified properties.

Modelling conventions:
- Python ints are ℤ (counts that are lengths are ℕ); Python float arithmetic
  is modelled exactly over ℚ.
- `random.randint(lo, hi)` is modelled by consuming one value from an abstract
  random stream `s : ℕ → ℕ` and mapping it into `[lo, hi]`; every theorem about
  generated data is quantified over the stream.
- `datetime` values are integer microsecond timestamps (ℤ); a Python `timedelta`'s
  `.seconds` attribute is the whole-seconds component of the normalized delta,
  i.e. `(delta_us / 10^6) % 86400` with floor division, exactly as in CPython.
- A Python exception is modelled as `Except.error`; `ZeroDivisionError` is what
  `x / 0` raises.
-/

namespace SmartWaste

/-- Bin status: the three string values "Good" / "Warning" / "Critical"
that app.py assigns (line 83). -/
inductive Status where
  | Good
  | Warning
  | Critical
deriving DecidableEq, Repr

/-- The status rule of app.py line 83:
`status = "Critical" if fill_level > 85 else "Warning" if fill_level > 70 else "Good"`. -/
def classify (fill_level : ℤ) : Status :=
  if fill_level > 85 then Status.Critical
  else if fill_level > 70 then Status.Warning
  else Status.Good

/-- The waste_classification dict of app.py lines 86-92 (five fixed waste types). -/
structure WasteTypes where
  plastic : ℤ
  paper : ℤ
  glass : ℤ
  metal : ℤ
  organic : ℤ
deriving DecidableEq, Repr

/-- One entry of the fixed `bin_locations` catalog (app.py lines 69-78). -/
structure BinLocation where
  id : String
  lat : ℚ
  lon : ℚ
  area : String
deriving DecidableEq, Repr

/-- One bin reading as built by `generate_bin_data` (app.py lines 94-103).
`last_collection` is modelled as hours before generation time. -/
structure BinReading where
  id : String
  lat : ℚ
  lon : ℚ
  area : String
  fill_level : ℤ
  status : Status
  last_collection_hours_ago : ℤ
  daily_waste : ℤ
  waste_classification : WasteTypes
  temperature : ℤ
  humidity : ℤ
deriving DecidableEq, Repr

/-- The fixed catalog of 8 bin identities (app.py lines 69-78). -/
def bin_locations : List BinLocation :=
  [⟨"BIN001", 28.6139, 77.2090, "Connaught Place"⟩,
   ⟨"BIN002", 28.6562, 77.2410, "Red Fort"⟩,
   ⟨"BIN003", 28.5535, 77.2588, "Lotus Temple"⟩,
   ⟨"BIN004", 28.6129, 77.2295, "India Gate"⟩,
   ⟨"BIN005", 28.6448, 77.2167, "Chandni Chowk"⟩,
   ⟨"BIN006", 28.5244, 77.1855, "Qutub Minar"⟩,
   ⟨"BIN007", 28.6692, 77.4538, "Akshardham"⟩,
   ⟨"BIN008", 28.6304, 77.2177, "Rajpath"⟩]

/-- Model of `random.randint(lo, hi)`: consume the k-th value of the random
stream `s` and map it into `[lo, hi]`. -/
def randint (s : ℕ → ℕ) (k : ℕ) (lo hi : ℤ) : ℤ :=
  lo + (s k : ℤ) % (hi - lo + 1)

/-- One loop iteration of `generate_bin_data` (app.py lines 81-103); `base` is
the index of the first random sample this bin consumes, samples are consumed in
the source's evaluation order. -/
def makeBin (s : ℕ → ℕ) (base : ℕ) (loc : BinLocation) : BinReading :=
  let fill_level := randint s base 10 95
  let status := if fill_level > 85 then Status.Critical
    else if fill_level > 70 then Status.Warning else Status.Good
  let waste_types : WasteTypes :=
    { plastic := randint s (base + 1) 20 40,
      paper := randint s (base + 2) 15 30,
      glass := randint s (base + 3) 5 20,
      metal := randint s (base + 4) 5 15,
      organic := randint s (base + 5) 25 45 }
  { id := loc.id, lat := loc.lat, lon := loc.lon, area := loc.area,
    fill_level := fill_level,
    status := status,
    last_collection_hours_ago := randint s (base + 6) 2 48,
    daily_waste := randint s (base + 7) 50 200,
    waste_classification := waste_types,
    temperature := randint s (base + 8) 20 35,
    humidity := randint s (base + 9) 40 80 }

/-- `generate_bin_data` (app.py lines 67-105): one reading per catalog entry,
in catalog order; each bin consumes 10 random samples. -/
def generate_bin_data (s : ℕ → ℕ) : List BinReading :=
  bin_locations.enum.map (fun p => makeBin s (10 * p.1) p.2)

/-- Fleet-wide metrics returned by `create_efficiency_metrics`
(app.py lines 191-199). -/
structure Metrics where
  total_bins : ℕ
  critical_bins : ℕ
  warning_bins : ℕ
  good_bins : ℤ
  avg_fill_level : ℚ
  total_daily_waste : ℤ
  collection_efficiency : ℚ
deriving DecidableEq, Repr

/-- Python exceptions relevant here. `EmptyFleetError` is the error class the
spec postulates; it does not occur anywhere in the source. -/
inductive PyError where
  | ZeroDivisionError
  | EmptyFleetError
deriving DecidableEq, Repr

/-- `create_efficiency_metrics` (app.py lines 178-199). The division
`(good_bins + warning_bins * 0.7) / total_bins` on line 189 is unguarded in the
source, so for an empty input the function raises `ZeroDivisionError`.
(`np.mean` of an empty list on line 185 yields NaN without raising, so the
division on line 189 is the first failure point.) -/
def create_efficiency_metrics (bin_data : List BinReading) : Except PyError Metrics :=
  let total_bins := bin_data.length
  let critical_bins := bin_data.countP (fun b => b.status = Status.Critical)
  let warning_bins := bin_data.countP (fun b => b.status = Status.Warning)
  let good_bins : ℤ := (total_bins : ℤ) - critical_bins - warning_bins
  let avg_fill_level : ℚ := (bin_data.map (fun b => (b.fill_level : ℚ))).sum / total_bins
  let total_daily_waste : ℤ := (bin_data.map (fun b => b.daily_waste)).sum
  if total_bins = 0 then Except.error PyError.ZeroDivisionError
  else Except.ok
    { total_bins := total_bins,
      critical_bins := critical_bins,
      warning_bins := warning_bins,
      good_bins := good_bins,
      avg_fill_level := avg_fill_level,
      total_daily_waste := total_daily_waste,
      collection_efficiency :=
        (((good_bins : ℚ) + (warning_bins : ℚ) * (7 / 10)) / (total_bins : ℚ)) * 100 }

/-- The critical alert list (app.py line 289): all Critical bins, snapshot
order, no cap. -/
def critical_alerts (bin_data : List BinReading) : List BinReading :=
  bin_data.filter (fun b => b.status = Status.Critical)

/-- The warning alert list as displayed (app.py lines 301-304): Warning bins in
snapshot order, truncated to the first 3 (`warning_bins[:3]`). -/
def warning_alerts_shown (bin_data : List BinReading) : List BinReading :=
  (bin_data.filter (fun b => b.status = Status.Warning)).take 3

/-- One route of the static catalog (app.py lines 203-208). -/
structure Route where
  name : String
  bins : ℕ
  distance : ℚ
  time : ℚ
  efficiency : ℤ
deriving DecidableEq, Repr

/-- The fixed 4-entry route catalog (app.py lines 203-208). -/
def routes : List Route :=
  [⟨"Route A", 8, 25.5, 3.2, 85⟩,
   ⟨"Route B", 6, 18.3, 2.8, 92⟩,
   ⟨"Route C", 10, 32.1, 4.1, 78⟩,
   ⟨"Route D", 7, 21.7, 3.0, 88⟩]

/-- Modelled from the spec: `best_route()` — maximum of the catalog by
efficiency, ties broken by catalog order (first occurrence wins). The source
has no such function; it hardcodes the matching recommendation text
"Route B shows highest efficiency (92%)" (app.py line 381). -/
def best_route : Option Route :=
  routes.foldl (fun acc r =>
    match acc with
    | none => some r
    | some b => if r.efficiency > b.efficiency then some r else some b) none

/-- Modelled from the spec: `worst_route()` — minimum of the catalog by
efficiency, ties broken by catalog order (first occurrence wins). The source
hardcodes the matching text "Route C has lowest efficiency (78%)"
(app.py line 382). -/
def worst_route : Option Route :=
  routes.foldl (fun acc r =>
    match acc with
    | none => some r
    | some b => if r.efficiency < b.efficiency then some r else some b) none

/-- The map marker color rule of `create_city_map` (app.py line 119):
`color = 'red' if fill_level > 85 else 'orange' if fill_level > 70 else 'green'`. -/
def marker_color (fill_level : ℤ) : String :=
  if fill_level > 85 then "red" else if fill_level > 70 then "orange" else "green"

/-- The session state of the dashboard: current snapshot plus the timestamp of
the last refresh, in microseconds (app.py lines 108-110). -/
structure FleetState where
  bin_data : List BinReading
  last_update : ℤ
deriving DecidableEq, Repr

/-- Python `timedelta.seconds` for a delta given in microseconds: the
whole-seconds component of the normalized delta, excluding full days
(CPython normalizes with floor division). -/
def timedelta_seconds (delta_us : ℤ) : ℤ :=
  (delta_us / 1000000) % 86400

/-- The periodic-refresh check of app.py lines 241-244, run during a render
pass when auto-refresh is enabled:
`if (datetime.now() - st.session_state.last_update).seconds > 30: regenerate`. -/
def auto_refresh_check (state : FleetState) (now_us : ℤ) (s : ℕ → ℕ) : FleetState :=
  if timedelta_seconds (now_us - state.last_update) > 30 then
    { bin_data := generate_bin_data s, last_update := now_us }
  else state

/-- Concrete readings used below to instantiate proved theorems. -/
def bin90 : BinReading :=
  ⟨"BIN001", 28.6139, 77.2090, "Connaught Place", 90, Status.Critical,
   5, 100, ⟨20, 15, 5, 5, 25⟩, 25, 50⟩

def bin40 : BinReading :=
  ⟨"BIN002", 28.6562, 77.2410, "Red Fort", 40, Status.Good,
   5, 100, ⟨20, 15, 5, 5, 25⟩, 25, 50⟩

/-- Claim C1: the status classifier is a total deterministic function on the
integers: Critical iff f > 85, Warning iff 70 < f ≤ 85, Good iff f ≤ 70, so the
result is always exactly one of the three statuses; in particular
classify 86 = Critical, classify 85 = Warning, classify 71 = Warning,
classify 70 = Good. -/
theorem classify_correct :
    classify 86 = Status.Critical ∧ classify 85 = Status.Warning ∧
    classify 71 = Status.Warning ∧ classify 70 = Status.Good ∧
    ∀ f : ℤ, (classify f = Status.Critical ↔ f > 85) ∧
      (classify f = Status.Warning ↔ 70 < f ∧ f ≤ 85) ∧
      (classify f = Status.Good ↔ f ≤ 70) := by
  refine ⟨by decide, by decide, by decide, by decide, fun f => ?_⟩
  unfold classify
  split_ifs with h1 h2 <;>
    refine ⟨?_, ?_, ?_⟩ <;> simp <;> omega

/-- Concrete valuations of the route queries, used by claim C6. -/
def routeB : Route := ⟨"Route B", 6, 18.3, 2.8, 92⟩

def routeC : Route := ⟨"Route C", 10, 32.1, 4.1, 78⟩

/-- Claim C6: over the fixed 4-entry catalog (efficiencies A:85, B:92, C:78,
D:88), best_route returns Route B, the catalog maximum by efficiency, and
worst_route returns Route C, the catalog minimum, first occurrence winning. -/
theorem best_worst_route_correct :
    best_route = some routeB ∧ worst_route = some routeC ∧
    routeB ∈ routes ∧ routeC ∈ routes ∧
    ∀ r ∈ routes, r.efficiency ≤ routeB.efficiency ∧ routeC.efficiency ≤ r.efficiency := by
  refine ⟨rfl, rfl, by norm_num [routes, routeB], by norm_num [routes, routeC], ?_⟩
  intro r hr
  fin_cases hr <;> exact ⟨by decide, by decide⟩

theorem best_worst_route_correct_witness :
    routeC.efficiency ≤ routeB.efficiency :=
  (best_worst_route_correct.2.2.2.2 routeB (by norm_num [routes, routeB])).2

/-- Claim C7: every generated snapshot has exactly 8 readings, one per fixed
bin id BIN001..BIN008 in registration order with the fixed coordinates and
area names, for every random stream; hence any two generations (i.e. any
refresh) produce the same id sequence — refresh never changes the set of ids. -/
theorem snapshot_ids_fixed :
    ∀ s : ℕ → ℕ,
      (generate_bin_data s).length = 8 ∧
      (generate_bin_data s).map (fun b => (b.id, b.lat, b.lon, b.area)) =
        bin_locations.map (fun loc => (loc.id, loc.lat, loc.lon, loc.area)) ∧
      (generate_bin_data s).map (fun b => b.id) =
        ["BIN001", "BIN002", "BIN003", "BIN004", "BIN005", "BIN006", "BIN007", "BIN008"] ∧
      ∀ s2 : ℕ → ℕ,
        (generate_bin_data s).map (fun b => b.id) = (generate_bin_data s2).map (fun b => b.id) :=
  fun _ => ⟨rfl, rfl, rfl, fun _ => rfl⟩

/-- Claim C8: in every generated snapshot the stored status field equals the
classifier applied to that reading's fill level. -/
theorem status_classify_invariant (s : ℕ → ℕ) :
    ∀ b ∈ generate_bin_data s, b.status = classify b.fill_level := by
  intro b hb
  obtain ⟨p, _, rfl⟩ := List.mem_map.mp hb
  rfl

theorem status_classify_invariant_witness :
    ((generate_bin_data (fun _ => 0)).map
      (fun b => decide (b.status = classify b.fill_level))).all id = true := by
  have h := status_classify_invariant (fun _ => 0)
  simp only [List.all_eq_true, List.mem_map, id]
  rintro x ⟨b, hb, rfl⟩
  exact decide_eq_true (h b hb)

/-- Claim C10: for every bin reading whose status satisfies the classifier
invariant, the independently re-derived map marker color agrees with the
stored status: red iff Critical, orange iff Warning, green iff Good. -/
theorem marker_color_agrees (b : BinReading) (h : b.status = classify b.fill_level) :
    (marker_color b.fill_level = "red" ↔ b.status = Status.Critical) ∧
    (marker_color b.fill_level = "orange" ↔ b.status = Status.Warning) ∧
    (marker_color b.fill_level = "green" ↔ b.status = Status.Good) := by
  rw [h]
  unfold marker_color classify
  split_ifs <;> refine ⟨?_, ?_, ?_⟩ <;> simp

theorem marker_color_agrees_witness :
    marker_color bin90.fill_level = "red" :=
  (marker_color_agrees bin90 (by decide)).1.mpr (by decide)

/-- Every reading's status is exactly one of the three buckets, so the three
status counts partition the snapshot. -/
lemma status_counts (l : List BinReading) :
    l.countP (fun b => b.status = Status.Good) +
      l.countP (fun b => b.status = Status.Warning) +
      l.countP (fun b => b.status = Status.Critical) = l.length := by
  induction l with
  | nil => simp
  | cons b t ih =>
    simp only [List.countP_cons, List.length_cons]
    cases hb : b.status <;> simp [hb] <;> omega

/-- All bins are Good exactly when both the Critical and the Warning counts
vanish. -/
lemma all_good_iff (l : List BinReading) :
    (∀ b ∈ l, b.status = Status.Good) ↔
      (l.countP (fun b => b.status = Status.Critical) = 0 ∧
       l.countP (fun b => b.status = Status.Warning) = 0) := by
  simp only [List.countP_eq_zero, decide_eq_true_eq]
  constructor
  · intro hall
    exact ⟨fun b hb => by simp [hall b hb], fun b hb => by simp [hall b hb]⟩
  · rintro ⟨hcz, hwz⟩ b hb
    have h1 := hcz b hb
    have h2 := hwz b hb
    cases hs : b.status
    · rfl
    · exact absurd hs h2
    · exact absurd hs h1

/-- All bins are Critical exactly when the Critical count is the length. -/
lemma all_critical_iff (l : List BinReading) :
    (∀ b ∈ l, b.status = Status.Critical) ↔
      l.countP (fun b => b.status = Status.Critical) = l.length := by
  rw [List.countP_eq_length]
  simp

/-- Field-level content of a successful `create_efficiency_metrics` call. -/
lemma metrics_ok_fields (bin_data : List BinReading) (m : Metrics)
    (h : create_efficiency_metrics bin_data = Except.ok m) :
    m.total_bins = bin_data.length ∧
    m.critical_bins = bin_data.countP (fun b => b.status = Status.Critical) ∧
    m.warning_bins = bin_data.countP (fun b => b.status = Status.Warning) ∧
    m.good_bins = (m.total_bins : ℤ) - m.critical_bins - m.warning_bins ∧
    m.collection_efficiency =
      (((m.good_bins : ℚ) + (m.warning_bins : ℚ) * (7 / 10)) / (m.total_bins : ℚ)) * 100 ∧
    bin_data ≠ [] := by
  simp only [create_efficiency_metrics] at h
  split at h
  · exact Except.noConfusion h
  case isFalse hne0 =>
    injection h with h'
    subst h'
    refine ⟨rfl, rfl, rfl, rfl, rfl, fun hnil => hne0 (by rw [hnil]; rfl)⟩

/-- Claim C3: on every snapshot accepted by the aggregator,
good_bins + warning_bins + critical_bins = total_bins = |S|, where the
Critical and Warning counts are the counts of readings with that status and
good_bins is total minus both. -/
theorem metrics_counts_sum (bin_data : List BinReading) (m : Metrics)
    (h : create_efficiency_metrics bin_data = Except.ok m) :
    m.good_bins + (m.warning_bins : ℤ) + (m.critical_bins : ℤ) = (m.total_bins : ℤ) ∧
    m.total_bins = bin_data.length ∧
    m.critical_bins = bin_data.countP (fun b => b.status = Status.Critical) ∧
    m.warning_bins = bin_data.countP (fun b => b.status = Status.Warning) ∧
    m.good_bins = (m.total_bins : ℤ) - m.critical_bins - m.warning_bins := by
  obtain ⟨h1, h2, h3, h4, -, -⟩ := metrics_ok_fields bin_data m h
  exact ⟨by omega, h1, h2, h3, h4⟩

/-- The metrics of the concrete two-bin snapshot [bin90, bin40]. -/
def mTest : Metrics := ⟨2, 1, 0, 1, 65, 200, 50⟩

theorem metrics_counts_sum_witness :
    ∃ m : Metrics, create_efficiency_metrics [bin90, bin40] = Except.ok m ∧
      m.good_bins + (m.warning_bins : ℤ) + (m.critical_bins : ℤ) = (m.total_bins : ℤ) := by
  have h : create_efficiency_metrics [bin90, bin40] = Except.ok mTest := by
    simp [create_efficiency_metrics, List.countP_cons, bin90, bin40, mTest]
    all_goals norm_num
  exact ⟨mTest, h, (metrics_counts_sum [bin90, bin40] mTest h).1⟩

/-- Claim C2: on every snapshot accepted by the aggregator (all non-empty
snapshots), collection_efficiency = 100 × (good_bins + 0.7 × warning_bins) /
total_bins; it lies in [0, 100], equals 100 iff every bin is Good, and equals
0 iff every bin is Critical. -/
theorem collection_efficiency_correct (bin_data : List BinReading) (m : Metrics)
    (h : create_efficiency_metrics bin_data = Except.ok m) :
    m.collection_efficiency =
      100 * ((m.good_bins : ℚ) + 7 / 10 * (m.warning_bins : ℚ)) / (m.total_bins : ℚ) ∧
    0 ≤ m.collection_efficiency ∧ m.collection_efficiency ≤ 100 ∧
    (m.collection_efficiency = 100 ↔ ∀ b ∈ bin_data, b.status = Status.Good) ∧
    (m.collection_efficiency = 0 ↔ ∀ b ∈ bin_data, b.status = Status.Critical) := by
  obtain ⟨ht, hc, hw, hg, heff, hne⟩ := metrics_ok_fields bin_data m h
  have hsum := status_counts bin_data
  have htpos : 0 < bin_data.length := List.length_pos.mpr hne
  have hTQ : (0 : ℚ) < (m.total_bins : ℚ) := by
    rw [ht]; exact_mod_cast htpos
  have hGQ : (m.good_bins : ℚ) =
      (m.total_bins : ℚ) - (m.critical_bins : ℚ) - (m.warning_bins : ℚ) := by
    rw [hg]; push_cast; ring
  have hCnn : (0 : ℚ) ≤ (m.critical_bins : ℚ) := by positivity
  have hWnn : (0 : ℚ) ≤ (m.warning_bins : ℚ) := by positivity
  have hcwle : m.critical_bins + m.warning_bins ≤ m.total_bins := by
    rw [ht, hc, hw]; omega
  have hCWQ : (m.critical_bins : ℚ) + (m.warning_bins : ℚ) ≤ (m.total_bins : ℚ) := by
    exact_mod_cast hcwle
  refine ⟨by rw [heff]; ring, ?_, ?_, ?_, ?_⟩
  · rw [heff]
    have hnum : (0 : ℚ) ≤ (m.good_bins : ℚ) + (m.warning_bins : ℚ) * (7 / 10) := by
      rw [hGQ]; linarith
    exact mul_nonneg (div_nonneg hnum hTQ.le) (by norm_num)
  · rw [heff]
    have hnum : (m.good_bins : ℚ) + (m.warning_bins : ℚ) * (7 / 10) ≤ (m.total_bins : ℚ) := by
      rw [hGQ]; linarith
    have hdiv := (div_le_one hTQ).mpr hnum
    linarith
  · rw [heff, all_good_iff, ← hc, ← hw, div_mul_eq_mul_div, div_eq_iff hTQ.ne']
    constructor
    · intro hEq
      rw [hGQ] at hEq
      have hC0 : (m.critical_bins : ℚ) = 0 := by linarith
      have hW0 : (m.warning_bins : ℚ) = 0 := by linarith
      exact ⟨by exact_mod_cast hC0, by exact_mod_cast hW0⟩
    · rintro ⟨hc0, hw0⟩
      have hC0 : (m.critical_bins : ℚ) = 0 := by exact_mod_cast hc0
      have hW0 : (m.warning_bins : ℚ) = 0 := by exact_mod_cast hw0
      rw [hGQ, hC0, hW0]; ring
  · rw [heff, all_critical_iff, ← hc, ← ht]
    constructor
    · intro hEq
      have hdiv0 : ((m.good_bins : ℚ) + (m.warning_bins : ℚ) * (7 / 10)) / (m.total_bins : ℚ) = 0 := by
        rcases mul_eq_zero.mp hEq with h0 | h0
        · exact h0
        · norm_num at h0
      have hnum0 : (m.good_bins : ℚ) + (m.warning_bins : ℚ) * (7 / 10) = 0 := by
        rcases div_eq_zero_iff.mp hdiv0 with h0 | h0
        · exact h0
        · exact absurd h0 hTQ.ne'
      have hGnn : (0 : ℚ) ≤ (m.good_bins : ℚ) := by rw [hGQ]; linarith
      have hW0 : (m.warning_bins : ℚ) = 0 := by linarith
      have hG0 : (m.good_bins : ℚ) = 0 := by linarith
      rw [hGQ] at hG0
      have hCT : (m.critical_bins : ℚ) = (m.total_bins : ℚ) := by linarith
      exact_mod_cast hCT
    · intro hct
      have hW0 : m.warning_bins = 0 := by omega
      have hCT : (m.critical_bins : ℚ) = (m.total_bins : ℚ) := by exact_mod_cast hct
      have hW0Q : (m.warning_bins : ℚ) = 0 := by exact_mod_cast hW0
      rw [hGQ, hCT, hW0Q]
      ring

/-- The metrics of the concrete all-Good snapshot [bin40]. -/
def mGood : Metrics := ⟨1, 0, 0, 1, 40, 100, 100⟩

theorem collection_efficiency_correct_witness :
    ∃ m : Metrics, create_efficiency_metrics [bin40] = Except.ok m ∧
      m.collection_efficiency = 100 := by
  have h : create_efficiency_metrics [bin40] = Except.ok mGood := by
    simp [create_efficiency_metrics, List.countP_cons, bin40, mGood]
  refine ⟨mGood, h, ?_⟩
  exact (collection_efficiency_correct [bin40] mGood h).2.2.2.1.mpr
    (by intro b hb; rw [List.mem_singleton] at hb; rw [hb]; rfl)

/-- Claim C5: the critical alert list is exactly the Critical bins in snapshot
order with no cap (length = critical_bins); the displayed warning alert list is
the Warning bins in snapshot order truncated to the first 3
(length = min(warning_bins, 3)). -/
theorem alerts_correct (bin_data : List BinReading) (m : Metrics)
    (h : create_efficiency_metrics bin_data = Except.ok m) :
    (critical_alerts bin_data).length = m.critical_bins ∧
    (warning_alerts_shown bin_data).length = min m.warning_bins 3 ∧
    List.Sublist (critical_alerts bin_data) bin_data ∧
    List.Sublist (warning_alerts_shown bin_data) bin_data ∧
    (∀ b, b ∈ critical_alerts bin_data ↔ b ∈ bin_data ∧ b.status = Status.Critical) ∧
    ∀ b ∈ warning_alerts_shown bin_data, b.status = Status.Warning := by
  obtain ⟨-, hc, hw, -, -, -⟩ := metrics_ok_fields bin_data m h
  refine ⟨?_, ?_, ?_, ?_, ?_, ?_⟩
  · rw [hc, List.countP_eq_length_filter]; rfl
  · rw [hw, List.countP_eq_length_filter]
    unfold warning_alerts_shown
    rw [List.length_take, Nat.min_comm]
  · exact List.filter_sublist bin_data
  · exact (List.take_sublist 3 _).trans (List.filter_sublist bin_data)
  · intro b
    unfold critical_alerts
    rw [List.mem_filter]
    simp
  · intro b hb
    have hb2 := List.mem_of_mem_take hb
    have := (List.mem_filter.mp hb2).2
    simpa using this

theorem alerts_correct_witness :
    (critical_alerts [bin90, bin40]).length = 1 := by
  have h : create_efficiency_metrics [bin90, bin40] = Except.ok mTest := by
    simp [create_efficiency_metrics, List.countP_cons, bin90, bin40, mTest]
    all_goals norm_num
  rw [(alerts_correct [bin90, bin40] mTest h).1]
  rfl

/-- Claim C4 counterexample: on the empty snapshot the aggregator fails with
ZeroDivisionError — the unguarded division on app.py line 189 — and not with
EmptyFleetError or any other guarded error; no EmptyFleetError exists anywhere
in the source. -/
theorem empty_fleet_counterexample :
    create_efficiency_metrics [] = Except.error PyError.ZeroDivisionError ∧
    create_efficiency_metrics [] ≠ Except.error PyError.EmptyFleetError := by
  refine ⟨rfl, fun h => ?_⟩
  rw [show create_efficiency_metrics [] = Except.error PyError.ZeroDivisionError from rfl] at h
  exact PyError.noConfusion (Except.error.inj h)

/-- Claim C4 amended: on the empty snapshot the aggregator performs the
unguarded division by zero of app.py line 189 (raising ZeroDivisionError);
for every non-empty snapshot the computation succeeds. -/
theorem empty_fleet_amended (bin_data : List BinReading) :
    (bin_data = [] →
      create_efficiency_metrics bin_data = Except.error PyError.ZeroDivisionError) ∧
    (bin_data ≠ [] → ∃ m, create_efficiency_metrics bin_data = Except.ok m) := by
  constructor
  · rintro rfl; rfl
  · intro hne
    simp only [create_efficiency_metrics]
    exact ⟨_, by rw [if_neg (fun h0 => hne (List.length_eq_zero.mp h0))]⟩

theorem empty_fleet_amended_witness :
    ∃ m, create_efficiency_metrics [bin90] = Except.ok m :=
  (empty_fleet_amended [bin90]).2 (by simp)

/-- The initial session state: one generated snapshot, last refresh at time 0. -/
def st0 : FleetState := ⟨generate_bin_data (fun _ => 0), 0⟩

/-- Claim C9 counterexample: with an elapsed time of exactly one day
(86400 s > 30 s) since the last refresh, the periodic check leaves the state
unchanged — `timedelta.seconds` is the whole-seconds component excluding full
days, which is 0 here — although the claim requires a refresh (which would
have reset last_update to now). -/
theorem auto_refresh_counterexample :
    (86400000000 : ℤ) - st0.last_update > 30 * 1000000 ∧
    auto_refresh_check st0 86400000000 (fun _ => 1) = st0 ∧
    st0.last_update ≠ (86400000000 : ℤ) := by
  exact ⟨by decide, rfl, by decide⟩

/-- Claim C9 amended: the periodic check regenerates the snapshot and resets
the timestamp exactly when the whole-seconds-mod-one-day component of the
elapsed time (Python `timedelta.seconds`) exceeds 30; in particular an elapsed
time of at most 30 seconds leaves the state unchanged, and an elapsed time
between 31 seconds and one day triggers the refresh. -/
theorem auto_refresh_amended (state : FleetState) (now_us : ℤ) (s : ℕ → ℕ) :
    (0 ≤ now_us - state.last_update → now_us - state.last_update ≤ 30 * 1000000 →
      auto_refresh_check state now_us s = state) ∧
    (31 * 1000000 ≤ now_us - state.last_update → now_us - state.last_update < 86400 * 1000000 →
      auto_refresh_check state now_us s = ⟨generate_bin_data s, now_us⟩) := by
  unfold auto_refresh_check timedelta_seconds
  constructor
  · intro h1 h2
    rw [if_neg (by omega)]
  · intro h1 h2
    rw [if_pos (by omega)]

theorem auto_refresh_amended_witness :
    auto_refresh_check ⟨[], 0⟩ 15000000 (fun _ => 0) = ⟨[], 0⟩ :=
  (auto_refresh_amended ⟨[], 0⟩ 15000000 (fun _ => 0)).1 (by decide) (by decide)

end SmartWaste
